import Mathlib

/-!
# Verification of the DirectX12Learning frame-execution core

Shallow embedding, translated from the C++ sources, of the parts of the
renderer that the specification's testable properties talk about:

* `AlignUp` and the shader-binding-table layout (`BaseRenderer.hpp`,
  `RenderRayTracing.cpp: buildShaderBindingTable`);
* the fence-carrying command queue (`CommandQueue.cpp`);
* the bump-pointer descriptor heap (`DescriptorHeap.cpp`);
* buffer mapping (`Buffer.cpp`);
* the top-level acceleration-structure build (`RenderRayTracing.cpp: buildTLAS`);
* the raytraced render variant's resource-readiness fallback
  (`RenderRayTracing.cpp: renderVariant`);
* the shared frame loop (`BaseRenderer.cpp: render / waitForGpu /
  moveToNextFrame / updateConstantBuffers`).

Machine integers are modelled as `Nat`, with an explicit `% 2 ^ 64` where a
64-bit counter can wrap (the fence counter) and an explicit 64-bit mask in
`AlignUp` (which the C++ computes with `size_t` bit operations).  Floating
point scalars that the code only stores and never computes with (clear
colors, matrix entries of exact translation matrices) are modelled as `ℚ`.
-/

/-! ## AlignUp (BaseRenderer.hpp, lines 43-45)

`inline size_t AlignUp(size_t size, size_t alignment) {
    return (size + alignment - 1) & ~(alignment - 1);
 }`

The complement is taken at the 64-bit width of `size_t`. -/

def AlignUp (size alignment : Nat) : Nat :=
  Nat.land (size + alignment - 1) (2 ^ 64 - 1 - (alignment - 1))

/-! ## D3D12 constants used by the code -/

def D3D12_SHADER_IDENTIFIER_SIZE_IN_BYTES : Nat := 32

def D3D12_RAYTRACING_SHADER_RECORD_BYTE_ALIGNMENT : Nat := 32

def D3D12_RAYTRACING_SHADER_TABLE_BYTE_ALIGNMENT : Nat := 64

def D3D12_RAYTRACING_ACCELERATION_STRUCTURE_BUILD_FLAG_ALLOW_UPDATE : Nat := 1

def D3D12_RAYTRACING_ACCELERATION_STRUCTURE_BUILD_FLAG_PREFER_FAST_TRACE : Nat := 4

def D3D12_RAYTRACING_ACCELERATION_STRUCTURE_BUILD_FLAG_PERFORM_UPDATE : Nat := 32

/-! ## CommandQueue (CommandQueue.cpp)

State kept by the queue that the claims mention: the 64-bit
`m_nextFenceValue` counter (initialized to 1 in `create`) and the fence's
last GPU-completed value. -/

structure CommandQueue where
  nextFenceValue : Nat
  completedValue : Nat
  deriving DecidableEq, Repr

/-- `CommandQueue::create` sets `m_nextFenceValue = 1` and creates the fence
with initial value 0. -/
def CommandQueue.create : CommandQueue :=
  { nextFenceValue := 1, completedValue := 0 }

/-- `CommandQueue::signal`:
`UINT64 fenceValueToSignal = m_nextFenceValue++;` then a GPU-side
`Signal`.  The post-increment is 64-bit arithmetic, hence the `% 2 ^ 64`.
Returns the handed-out value together with the new queue state (a failed
`Signal` throws and is modelled as the successful path only, per the spec's
fatal-error taxonomy). -/
def CommandQueue.signal (q : CommandQueue) : Nat × CommandQueue :=
  (q.nextFenceValue, { q with nextFenceValue := (q.nextFenceValue + 1) % 2 ^ 64 })

/-- `CommandQueue::isFenceComplete`: `GetCompletedValue() >= fenceValue`. -/
def CommandQueue.isFenceComplete (q : CommandQueue) (fenceValue : Nat) : Bool :=
  fenceValue ≤ q.completedValue

/-- Queue state after `n` successive `signal()` calls. -/
def CommandQueue.signalState (q : CommandQueue) : Nat → CommandQueue
  | 0 => q
  | n + 1 => (q.signal.2).signalState n

/-- The value returned by the `(n+1)`-th `signal()` call (0-indexed) in a
run of successive calls starting from state `q`. -/
def CommandQueue.signalValue (q : CommandQueue) (n : Nat) : Nat :=
  ((q.signalState n).signal).1

/-! ## DescriptorHeap (DescriptorHeap.cpp) -/

structure DescriptorHandle where
  ptr : Nat
  deriving DecidableEq, Repr

/-- The fields of `DescriptorHeap` that `allocateDescriptor` reads or
writes.  `heapCreated` models `m_heap != nullptr`. -/
structure DescriptorHeap where
  heapCreated : Bool
  numDescriptorsInHeap : Nat
  shaderVisible : Bool
  descriptorSize : Nat
  startCPU : Nat
  startGPU : Nat
  currentDescriptorIndex : Nat
  deriving DecidableEq, Repr

structure AllocResult where
  ok : Bool
  outCPUHandle : DescriptorHandle
  outGPUHandle : DescriptorHandle
  heap : DescriptorHeap
  deriving DecidableEq, Repr

/-- `DescriptorHeap::allocateDescriptor` (DescriptorHeap.cpp, lines 69-90):
fails with zeroed-out handles when the heap is missing or the bump index
has reached capacity; otherwise hands out the handle pair at the current
index and advances the index. -/
def DescriptorHeap.allocateDescriptor (h : DescriptorHeap) : AllocResult :=
  if ¬h.heapCreated ∨ h.numDescriptorsInHeap ≤ h.currentDescriptorIndex then
    { ok := false, outCPUHandle := ⟨0⟩, outGPUHandle := ⟨0⟩, heap := h }
  else
    { ok := true
      outCPUHandle := ⟨h.startCPU + h.currentDescriptorIndex * h.descriptorSize⟩
      outGPUHandle :=
        if h.shaderVisible then
          ⟨h.startGPU + h.currentDescriptorIndex * h.descriptorSize⟩
        else ⟨0⟩
      heap := { h with currentDescriptorIndex := h.currentDescriptorIndex + 1 } }

/-- Heap state after `n` successive `allocateDescriptor` calls. -/
def DescriptorHeap.allocState (h : DescriptorHeap) : Nat → DescriptorHeap
  | 0 => h
  | n + 1 => (h.allocateDescriptor).heap.allocState n

/-- Number of successful allocations among `n` successive
`allocateDescriptor` calls starting from `h`. -/
def DescriptorHeap.allocCount (h : DescriptorHeap) : Nat → Nat
  | 0 => 0
  | n + 1 =>
    let r := h.allocateDescriptor
    (if r.ok then 1 else 0) + r.heap.allocCount n

/-! ## Buffer mapping (Buffer.cpp, lines 118-134) -/

inductive HeapType where
  | DEFAULT
  | UPLOAD
  | READBACK
  deriving DecidableEq, Repr

/-- The fields of `Buffer` that `map` reads or writes.  `mappedData` is the
CPU pointer (`none` models `nullptr`). -/
structure Buffer where
  hasResource : Bool
  heapType : HeapType
  mappedData : Option Nat
  deriving DecidableEq, Repr

structure MapResult where
  ret : Option Nat
  buf : Buffer
  calledResourceMap : Bool
  deriving DecidableEq, Repr

/-- `Buffer::map`.  `osMap` is the pointer the OS/driver would hand back if
`ID3D12Resource::Map` is actually invoked (`none` models a failed
`HRESULT`, after which the code stores `nullptr`).  The early return
`if (!m_resource || m_mappedData) return m_mappedData;` is taken without
touching the resource. -/
def Buffer.map (b : Buffer) (osMap : Option Nat) : MapResult :=
  if ¬b.hasResource ∨ b.mappedData.isSome then
    { ret := b.mappedData, buf := b, calledResourceMap := false }
  else
    match osMap with
    | some p =>
      { ret := some p, buf := { b with mappedData := some p }, calledResourceMap := true }
    | none =>
      { ret := none, buf := { b with mappedData := none }, calledResourceMap := true }

/-! ## Shader binding table layout
(RenderRayTracing.cpp: buildShaderBindingTable, lines 619-698) -/

def shaderIdSize : Nat := D3D12_SHADER_IDENTIFIER_SIZE_IN_BYTES

def sbtEntrySize : Nat :=
  AlignUp shaderIdSize D3D12_RAYTRACING_SHADER_RECORD_BYTE_ALIGNMENT

def tableAlignment : Nat := D3D12_RAYTRACING_SHADER_TABLE_BYTE_ALIGNMENT

def numRayGenEntries : Nat := 1

def numMissEntries : Nat := 2

def numHitGroupEntries : Nat := 2

def rayGenTableStart : Nat := 0

def missTableStart : Nat :=
  AlignUp (rayGenTableStart + numRayGenEntries * sbtEntrySize) tableAlignment

def hitGroupTableStart : Nat :=
  AlignUp (missTableStart + numMissEntries * sbtEntrySize) tableAlignment

def sbtSize : Nat :=
  AlignUp (hitGroupTableStart + numHitGroupEntries * sbtEntrySize) tableAlignment

/-- The five shader exports whose identifiers the code fetches from the
pipeline state object. -/
inductive ExportName where
  | RayGen
  | Miss
  | ShadowMiss
  | HitGroup
  | ShadowHitGroup
  deriving DecidableEq, Repr

/-- `ID3D12StateObjectProperties` of a built pipeline, as consumed by
`buildShaderBindingTable`: a deterministic identifier lookup per export
name (`GetShaderIdentifier` returns `nullptr`, modelled `none`, on a
missing export). -/
structure StateObjectProps where
  getShaderIdentifier : ExportName → Option (List Nat)

/-- Identifier bytes fetched for the five records. -/
structure ShaderIds where
  rayGenId : List Nat
  missId : List Nat
  shadowMissId : List Nat
  hitGroupId : List Nat
  shadowHitGroupId : List Nat
  deriving DecidableEq, Repr

/-- Byte at offset `off` of the shader binding table buffer after the five
`memcpy`s in `buildShaderBindingTable`.  The buffer is a freshly created
committed resource, hence zero-initialized; only the identifier bytes are
written.  The copied regions are pairwise disjoint. -/
def sbtByte (ids : ShaderIds) (off : Nat) : Nat :=
  if rayGenTableStart ≤ off ∧ off < rayGenTableStart + shaderIdSize then
    ids.rayGenId.getD (off - rayGenTableStart) 0
  else if missTableStart ≤ off ∧ off < missTableStart + shaderIdSize then
    ids.missId.getD (off - missTableStart) 0
  else if missTableStart + sbtEntrySize ≤ off ∧
      off < missTableStart + sbtEntrySize + shaderIdSize then
    ids.shadowMissId.getD (off - (missTableStart + sbtEntrySize)) 0
  else if hitGroupTableStart ≤ off ∧ off < hitGroupTableStart + shaderIdSize then
    ids.hitGroupId.getD (off - hitGroupTableStart) 0
  else if hitGroupTableStart + sbtEntrySize ≤ off ∧
      off < hitGroupTableStart + sbtEntrySize + shaderIdSize then
    ids.shadowHitGroupId.getD (off - (hitGroupTableStart + sbtEntrySize)) 0
  else 0

/-- Full byte contents of the shader binding table buffer. -/
def sbtContents (ids : ShaderIds) : List Nat :=
  (List.range sbtSize).map (sbtByte ids)

/-- `RenderRayTracing::buildShaderBindingTable`: fetch the five shader
identifiers from the pipeline; if any is missing, fail; otherwise lay the
table out and copy the identifiers.  Returns the table's byte contents on
success. -/
def buildShaderBindingTable (p : StateObjectProps) : Option (List Nat) :=
  match p.getShaderIdentifier .RayGen, p.getShaderIdentifier .Miss,
      p.getShaderIdentifier .ShadowMiss, p.getShaderIdentifier .HitGroup,
      p.getShaderIdentifier .ShadowHitGroup with
  | some rg, some m, some sm, some hg, some shg =>
    some (sbtContents { rayGenId := rg, missId := m, shadowMissId := sm,
                        hitGroupId := hg, shadowHitGroupId := shg })
  | _, _, _, _, _ => none

/-! ## glm matrices (column-major), as used by the renderer

`Mat4 c r` is the entry at column `c`, row `r`, matching glm's
`m[col][row]` indexing and `value_ptr` memory order. -/

def Mat4 : Type := Fin 4 → Fin 4 → ℚ

instance : DecidableEq Mat4 := by
  unfold Mat4
  infer_instance

/-- `glm::mat4(1.0f)`. -/
def identity4 : Mat4 := fun c r => if (c : Nat) = (r : Nat) then 1 else 0

/-- `glm::translate(m, v)`: copies `m` and sets column 3 to
`m[0]*v.x + m[1]*v.y + m[2]*v.z + m[3]`. -/
def glmTranslate (m : Mat4) (v : Fin 3 → ℚ) : Mat4 := fun c r =>
  if (c : Nat) = 3 then m 0 r * v 0 + m 1 r * v 1 + m 2 r * v 2 + m 3 r
  else m c r

/-- `glm::transpose`. -/
def glmTranspose (m : Mat4) : Mat4 := fun c r => m r c

/-- Column-major matrix product `a * b` (glm `operator*`). -/
def matMul (a b : Mat4) : Mat4 := fun c r =>
  Finset.univ.sum fun k => a k r * b c k

/-- The translation `glm::vec3(0.0f, -1.0f, 0.0f)` used for the world
matrix in `buildTLAS` and `updateConstantBuffers`. -/
def worldTranslation : Fin 3 → ℚ := fun i => if (i : Nat) = 1 then -1 else 0

/-- `glm::translate(glm::mat4(1.0f), glm::vec3(0.0f, -1.0f, 0.0f))`. -/
def worldMatrix : Mat4 := glmTranslate identity4 worldTranslation

/-- The `memcpy` of the first 48 bytes (12 floats) of
`glm::value_ptr(src)` into the row-major `FLOAT Transform[3][4]` field of
`D3D12_RAYTRACING_INSTANCE_DESC`: `Transform[r][c]` receives flat element
`r*4 + c` of `src`'s column-major storage. -/
def memcpyTransform (src : Mat4) : Fin 3 → Fin 4 → ℚ := fun r c =>
  src ⟨(4 * r.1 + c.1) / 4, by have := r.isLt; have := c.isLt; omega⟩
      ⟨(4 * r.1 + c.1) % 4, Nat.mod_lt _ (by omega)⟩

/-! ## Top-level acceleration structure build
(RenderRayTracing.cpp: buildTLAS, lines 771-883) -/

/-- A committed GPU buffer as far as `buildTLAS` observes it:
`GetDesc().Width` and `GetGPUVirtualAddress()`. -/
structure GpuBuffer where
  width : Nat
  address : Nat
  deriving DecidableEq, Repr

/-- `D3D12_RAYTRACING_INSTANCE_DESC`, with the fields the code writes. -/
structure InstanceDesc where
  transform : Fin 3 → Fin 4 → ℚ
  instanceID : Nat
  instanceMask : Nat
  accelerationStructure : Nat
  flags : Nat

/-- `m_tlasBuffers`: scratch / result buffers (the instance-descriptor
upload buffer itself is created at `init` and always present). -/
structure TlasBuffersState where
  scratch : Option GpuBuffer
  result : Option GpuBuffer
  deriving DecidableEq, Repr

/-- The parts of `D3D12_BUILD_RAYTRACING_ACCELERATION_STRUCTURE_DESC`
passed to `BuildRaytracingAccelerationStructure` that the claims are
about. -/
structure TlasBuildDesc where
  inputFlags : Nat
  destAddress : Nat
  sourceAddress : Nat
  scratchAddress : Nat
  numDescs : Nat
  deriving DecidableEq, Repr

structure TlasBuildOutcome where
  tlas : TlasBuffersState
  buildDesc : TlasBuildDesc
  instanceDescWritten : InstanceDesc

/-- The instance descriptor written into the instance buffer by
`buildTLAS` (lines 782-788): identity-with-translation world matrix,
transposed, `InstanceID = 0`, `InstanceMask = 1`,
`AccelerationStructure = ` BLAS result address, `Flags = NONE (0)`. -/
def tlasInstanceDesc (blas : GpuBuffer) : InstanceDesc :=
  { transform := memcpyTransform (glmTranspose worldMatrix)
    instanceID := 0
    instanceMask := 1
    accelerationStructure := blas.address
    flags := 0 }

/-- `RenderRayTracing::buildTLAS`.  External observations supplied as
arguments: `blasResult` (`m_blasBuffers.result`),
`prebuildResultSize` / `prebuildScratchSize` (the device's
`GetRaytracingAccelerationStructurePrebuildInfo` answer), and the freshly
created committed resources' addresses `freshScratchAddress` /
`freshResultAddress` (used only when the code (re)allocates).  Resource
creation and instance-buffer mapping are modelled on their successful
paths; `none` models an early `return false`. -/
def buildTLAS (blasResult : Option GpuBuffer) (tlas : TlasBuffersState)
    (prebuildResultSize prebuildScratchSize : Nat)
    (freshScratchAddress freshResultAddress : Nat) : Option TlasBuildOutcome :=
  match blasResult with
  | none => none
  | some blas =>
    let written := tlasInstanceDesc blas
    let performUpdate := tlas.result.isSome
    let inputFlags :=
      Nat.lor
        (Nat.lor D3D12_RAYTRACING_ACCELERATION_STRUCTURE_BUILD_FLAG_PREFER_FAST_TRACE
          D3D12_RAYTRACING_ACCELERATION_STRUCTURE_BUILD_FLAG_ALLOW_UPDATE)
        (if performUpdate then
          D3D12_RAYTRACING_ACCELERATION_STRUCTURE_BUILD_FLAG_PERFORM_UPDATE
        else 0)
    if prebuildResultSize = 0 then none
    else
      let scratch :=
        match tlas.scratch with
        | some s =>
          if s.width < prebuildScratchSize then
            { width := prebuildScratchSize, address := freshScratchAddress }
          else s
        | none => { width := prebuildScratchSize, address := freshScratchAddress }
      match tlas.result with
      | some prev =>
        if prev.width < prebuildResultSize then
          -- previous result too small: allocate a freshly sized buffer and
          -- fall back to an initial build (performUpdate := false), though
          -- the PERFORM_UPDATE bit already baked into inputFlags stays set
          let res : GpuBuffer := { width := prebuildResultSize, address := freshResultAddress }
          some { tlas := { scratch := some scratch, result := some res }
                 buildDesc := { inputFlags := inputFlags, destAddress := res.address,
                                sourceAddress := 0, scratchAddress := scratch.address,
                                numDescs := 1 }
                 instanceDescWritten := written }
        else
          some { tlas := { scratch := some scratch, result := some prev }
                 buildDesc := { inputFlags := inputFlags, destAddress := prev.address,
                                sourceAddress := prev.address,
                                scratchAddress := scratch.address, numDescs := 1 }
                 instanceDescWritten := written }
      | none =>
        let res : GpuBuffer := { width := prebuildResultSize, address := freshResultAddress }
        some { tlas := { scratch := some scratch, result := some res }
               buildDesc := { inputFlags := inputFlags, destAddress := res.address,
                              sourceAddress := 0, scratchAddress := scratch.address,
                              numDescs := 1 }
               instanceDescWritten := written }

/-- The spec's notion of an instance mask "selecting all rays": every
nonzero 8-bit ray inclusion mask intersects it (`TraceRay` skips an
instance when `InstanceMask & RayInclusionMask == 0`). -/
def selectsAllRays (instanceMask : Nat) : Prop :=
  ∀ rayMask : Fin 256, rayMask.1 ≠ 0 → Nat.land instanceMask rayMask.1 ≠ 0

instance (m : Nat) : Decidable (selectsAllRays m) := by
  unfold selectsAllRays
  infer_instance

/-! ## Raytraced render variant
(RenderRayTracing.cpp: renderVariant, lines 99-255) -/

/-- `Texture`, as observed by the render path: its SRV GPU handle. -/
structure Texture where
  srvGPUHandle : Nat
  deriving DecidableEq, Repr

/-- Commands recorded into the command list by the raytraced variant. -/
inductive DxrCmd where
  | clearRenderTargetView (color : List ℚ)
  | transitionBarrier
  | uavBarrier
  | buildRaytracingAccelerationStructure (desc : TlasBuildDesc)
  | setPipelineState1
  | setComputeRootSignature
  | setComputeRootDescriptorTable (param : Nat) (handle : Nat)
  | setComputeRootShaderResourceView (param : Nat) (address : Nat)
  | dispatchRays (width height depth : Nat)
  | copyResource

/-- The diagnostic clear color `{0.4f, 0.1f, 0.4f, 1.0f}` ("Purple for
error/not ready"); the `float` literals are carried as the decimal values
they denote, never computed with. -/
def diagnosticClearColor : List ℚ := [4/10, 1/10, 4/10, 1]

/-- The fields of `RenderRayTracing` read by `renderVariant`'s readiness
checks and dispatch.  Booleans model null tests of ComPtr members; `Nat`
handles model `D3D12_GPU_DESCRIPTOR_HANDLE.ptr` (0 = null). -/
structure RenderRayTracingState where
  stateObject : Bool
  shaderBindingTable : Option GpuBuffer
  sbtEntrySize : Nat
  blasResult : Option GpuBuffer
  tlasBuffers : TlasBuffersState
  outputTexture : Bool
  outputUavGpuHandle : Nat
  dxrCameraCbvHandleGPU : Nat
  dxrObjectCbvHandleGPU : Nat
  dxrLightCbvHandleGPU : Nat
  dxrMaterialCbvHandleGPU : Nat
  meshVertexBufferSrvHandleGPU : Nat
  meshIndexBufferSrvHandleGPU : Nat
  swapWidth : Nat
  swapHeight : Nat
  deriving DecidableEq, Repr

/-- The `resourcesReady` flag computed by the chain of null checks at the
top of `renderVariant` (lines 108-148). -/
def resourcesReady (s : RenderRayTracingState) (texture : Option Texture) : Bool :=
  s.stateObject && s.shaderBindingTable.isSome && s.tlasBuffers.result.isSome &&
  s.outputTexture && (s.outputUavGpuHandle != 0) && (s.dxrCameraCbvHandleGPU != 0) &&
  (s.dxrObjectCbvHandleGPU != 0) &&
  (match texture with
   | some t => t.srvGPUHandle != 0
   | none => false) &&
  (s.meshVertexBufferSrvHandleGPU != 0) && (s.meshIndexBufferSrvHandleGPU != 0)

/-- `RenderRayTracing::renderVariant`.  `prebuildResultSize`,
`prebuildScratchSize`, `freshScratchAddress` and `freshResultAddress` are
the per-frame external observations handed through to `buildTLAS`.
Returns the commands recorded into the command list and the updated
raytracing state.  When `resourcesReady` is false the function clears the
back buffer with the diagnostic color and returns; the later early
returns (zero SBT entry size / zero SBT base address / failed TLAS build)
record nothing further. -/
def renderVariant (s : RenderRayTracingState) (texture : Option Texture)
    (prebuildResultSize prebuildScratchSize freshScratchAddress freshResultAddress : Nat) :
    List DxrCmd × RenderRayTracingState :=
  if ¬resourcesReady s texture then
    ([DxrCmd.clearRenderTargetView diagnosticClearColor], s)
  else
    if s.sbtEntrySize = 0 then ([], s)
    else
      let sbtBase := (s.shaderBindingTable.map GpuBuffer.address).getD 0
      if sbtBase = 0 then ([], s)
      else
        match buildTLAS s.blasResult s.tlasBuffers prebuildResultSize
            prebuildScratchSize freshScratchAddress freshResultAddress with
        | none => ([], s)
        | some o =>
          let texHandle := (texture.map Texture.srvGPUHandle).getD 0
          ([DxrCmd.buildRaytracingAccelerationStructure o.buildDesc,
            DxrCmd.uavBarrier,
            DxrCmd.transitionBarrier,
            DxrCmd.transitionBarrier,
            DxrCmd.setPipelineState1,
            DxrCmd.setComputeRootSignature,
            DxrCmd.setComputeRootDescriptorTable 0 s.outputUavGpuHandle,
            DxrCmd.setComputeRootShaderResourceView 1
              (((o.tlas.result).map GpuBuffer.address).getD 0),
            DxrCmd.setComputeRootDescriptorTable 0 s.outputUavGpuHandle,
            DxrCmd.setComputeRootShaderResourceView 1
              (((o.tlas.result).map GpuBuffer.address).getD 0),
            DxrCmd.setComputeRootDescriptorTable 2 s.dxrCameraCbvHandleGPU,
            DxrCmd.setComputeRootDescriptorTable 3 texHandle,
            DxrCmd.setComputeRootDescriptorTable 4 s.meshVertexBufferSrvHandleGPU,
            DxrCmd.setComputeRootDescriptorTable 5 s.meshIndexBufferSrvHandleGPU,
            DxrCmd.setComputeRootDescriptorTable 6 s.dxrObjectCbvHandleGPU,
            DxrCmd.setComputeRootDescriptorTable 7 s.dxrLightCbvHandleGPU,
            DxrCmd.setComputeRootDescriptorTable 8 s.dxrMaterialCbvHandleGPU,
            DxrCmd.dispatchRays s.swapWidth s.swapHeight 1,
            DxrCmd.transitionBarrier,
            DxrCmd.transitionBarrier,
            DxrCmd.copyResource,
            DxrCmd.transitionBarrier],
           { s with tlasBuffers := o.tlas })

/-! ## Shared frame loop (BaseRenderer.cpp) -/

/-- `Camera`, as observed by `updateConstantBuffers`. -/
structure Camera where
  position : Fin 3 → ℚ
  viewMatrix : Mat4
  projectionMatrix : Mat4

/-- `Mesh`, as observed by the shared frame loop (only its presence
matters there). -/
structure Mesh where
  indexCount : Nat
  deriving DecidableEq, Repr

/-- `LightConstant` contents written each frame (BaseRenderer.cpp, lines
313-319).  `lightPosition` is the constant `(0, 2, 0)` — the `lightX` /
`lightZ` sine values are computed but never stored. -/
structure LightConstant where
  ambientColor : Fin 4 → ℚ
  lightPosition : Fin 3 → ℚ
  lightColor : Fin 4 → ℚ
  cameraPosition : Fin 3 → ℚ

/-- `ObjectConstant` contents written each frame (BaseRenderer.cpp, lines
328-332). -/
structure ObjectConstant where
  worldMatrix : Mat4
  mvpMatrix : Mat4

/-- Per-frame renderer state shared by both render paths:
`m_currentFrameIndex`, the `m_frameFenceValues` ring
(`SwapChain::kBackBufferCount = 3` slots, zero-initialized in the
constructor), the command queue, the persistently mapped per-frame
constant buffers' contents, and `m_totalTime`. -/
structure FrameState where
  currentFrameIndex : Fin 3
  frameFenceValues : Fin 3 → Nat
  queue : CommandQueue
  lightCBs : Fin 3 → Option LightConstant
  objectCBs : Fin 3 → Option ObjectConstant
  totalTime : ℚ

/-- Externally observable calls made by `BaseRenderer::render`. -/
inductive RenderEvent where
  | waitForFenceCall (fenceValue : Nat)
  | resetAllocatorCall (slot : Nat)
  | resetCommandListCall (slot : Nat)
  | recordCommands
  | closeCall
  | executeCommandListsCall
  | presentCall
  | signalCall (fenceValue : Nat)
  deriving DecidableEq, Repr

/-- Per-frame success/failure of the fallible collaborator calls inside
`render`, plus the back-buffer index the swap chain reports after
`present()`. -/
structure RenderInputs where
  resetAllocatorOk : Bool
  resetCommandListOk : Bool
  closeOk : Bool
  presentOk : Bool
  nextBackBufferIndex : Fin 3
  deriving DecidableEq, Repr

/-- `BaseRenderer::waitForGpu` (lines 68-73): reads the current slot's
stored fence value and invokes `CommandQueue::waitForFence` on it only
when it is nonzero. -/
def waitForGpu (s : FrameState) : List RenderEvent :=
  let fenceValue := s.frameFenceValues s.currentFrameIndex
  if 0 < fenceValue then [RenderEvent.waitForFenceCall fenceValue] else []

/-- `BaseRenderer::updateConstantBuffers` (lines 308-340): advances
`m_totalTime` and rewrites the current slot's light and object constant
buffers. -/
def updateConstantBuffers (s : FrameState) (deltaTime : ℚ) (camera : Camera) :
    FrameState :=
  let lightConsts : LightConstant :=
    { ambientColor := fun i => if (i : Nat) = 3 then 1 else 2/10
      lightPosition := fun i => if (i : Nat) = 1 then 2 else 0
      lightColor := fun _ => 1
      cameraPosition := camera.position }
  let viewProj := matMul camera.projectionMatrix camera.viewMatrix
  let objectConsts : ObjectConstant :=
    { worldMatrix := worldMatrix
      mvpMatrix := matMul viewProj worldMatrix }
  { s with
    totalTime := s.totalTime + deltaTime
    lightCBs := fun j => if j = s.currentFrameIndex then some lightConsts else s.lightCBs j
    objectCBs := fun j => if j = s.currentFrameIndex then some objectConsts else s.objectCBs j }

/-- `BaseRenderer::moveToNextFrame` (lines 75-79): signal, store the
returned fence value into the current slot, then adopt whatever
back-buffer index the swap chain reports. -/
def moveToNextFrame (s : FrameState) (nextBackBufferIndex : Fin 3) : FrameState × RenderEvent :=
  let sig := s.queue.signal
  ({ s with
     queue := sig.2
     frameFenceValues := fun j =>
       if j = s.currentFrameIndex then sig.1 else s.frameFenceValues j
     currentFrameIndex := nextBackBufferIndex },
   RenderEvent.signalCall sig.1)

/-- `BaseRenderer::render` (lines 25-66).  Returns the new frame state and
the trace of collaborator calls.  The very first statement is the null
guard `if (!camera || !mesh || !texture) return;`.  The recording of the
back-buffer barriers, heap binding and `renderVariant` is abstracted into
the single `recordCommands` event (its raytraced refinement is
`renderVariant` above). -/
def render (s : FrameState) (inputs : RenderInputs) (deltaTime : ℚ)
    (camera : Option Camera) (mesh : Option Mesh) (texture : Option Texture) :
    FrameState × List RenderEvent :=
  match camera, mesh, texture with
  | some cam, some _, some _ =>
    let waitEvents := waitForGpu s
    let s1 := updateConstantBuffers s deltaTime cam
    if ¬inputs.resetAllocatorOk then
      (s1, waitEvents ++ [RenderEvent.resetAllocatorCall s1.currentFrameIndex.1])
    else if ¬inputs.resetCommandListOk then
      (s1, waitEvents ++ [RenderEvent.resetAllocatorCall s1.currentFrameIndex.1,
                          RenderEvent.resetCommandListCall s1.currentFrameIndex.1])
    else
      let recorded := waitEvents ++
        [RenderEvent.resetAllocatorCall s1.currentFrameIndex.1,
         RenderEvent.resetCommandListCall s1.currentFrameIndex.1,
         RenderEvent.recordCommands, RenderEvent.closeCall]
      if ¬inputs.closeOk then
        (s1, recorded)
      else
        let afterMove := moveToNextFrame s1 inputs.nextBackBufferIndex
        (afterMove.1, recorded ++
          [RenderEvent.executeCommandListsCall, RenderEvent.presentCall, afterMove.2])
  | _, _, _ => (s, [])

/-- The claim's notion of "the incremental-update path was taken" in a
top-level build: the `PERFORM_UPDATE` flag is set in the build inputs and
the previous result buffer is used as both source and destination. -/
def tlasUpdatePathTaken (o : TlasBuildOutcome) (prev : GpuBuffer) : Prop :=
  Nat.land o.buildDesc.inputFlags
    D3D12_RAYTRACING_ACCELERATION_STRUCTURE_BUILD_FLAG_PERFORM_UPDATE ≠ 0 ∧
  o.buildDesc.sourceAddress = prev.address ∧
  o.buildDesc.destAddress = prev.address

/-- Concrete outcome of the very first top-level build at prebuild sizes
64/32 with fresh buffer addresses 2000/3000 and a BLAS at ⟨100, 1000⟩
(used to exhibit the full-rebuild branch on a concrete input). -/
def tlasFirstBuildOutcome : TlasBuildOutcome :=
  { tlas := { scratch := some ⟨32, 2000⟩, result := some ⟨64, 3000⟩ },
    buildDesc := { inputFlags := 5, destAddress := 3000, sourceAddress := 0,
                   scratchAddress := 2000, numDescs := 1 },
    instanceDescWritten := tlasInstanceDesc ⟨100, 1000⟩ }

/-- Concrete outcome of a top-level build that takes the incremental
update path: previous result buffer ⟨128, 5000⟩ is large enough for the
64-byte prebuild answer. -/
def tlasUpdateBuildOutcome : TlasBuildOutcome :=
  { tlas := { scratch := some ⟨32, 2000⟩, result := some ⟨128, 5000⟩ },
    buildDesc := { inputFlags := 37, destAddress := 5000, sourceAddress := 5000,
                   scratchAddress := 2000, numDescs := 1 },
    instanceDescWritten := tlasInstanceDesc ⟨50, 4000⟩ }

/-! ## Helper lemmas -/

theorem DescriptorHeap.allocateDescriptor_heapCreated (h : DescriptorHeap) :
    (h.allocateDescriptor).heap.heapCreated = h.heapCreated := by
  unfold DescriptorHeap.allocateDescriptor
  split <;> rfl

theorem DescriptorHeap.allocateDescriptor_numDescriptors (h : DescriptorHeap) :
    (h.allocateDescriptor).heap.numDescriptorsInHeap = h.numDescriptorsInHeap := by
  unfold DescriptorHeap.allocateDescriptor
  split <;> rfl

theorem DescriptorHeap.allocCount_le (n : Nat) (h : DescriptorHeap) :
    h.allocCount n ≤ h.numDescriptorsInHeap - h.currentDescriptorIndex := by
  induction n generalizing h with
  | zero => simp [DescriptorHeap.allocCount]
  | succ n ih =>
    rw [DescriptorHeap.allocCount]
    by_cases hc : ¬h.heapCreated ∨ h.numDescriptorsInHeap ≤ h.currentDescriptorIndex
    · have hfail : h.allocateDescriptor =
          { ok := false, outCPUHandle := ⟨0⟩, outGPUHandle := ⟨0⟩, heap := h } := by
        unfold DescriptorHeap.allocateDescriptor
        exact if_pos hc
      rw [hfail]
      simpa using ih h
    · have hok : h.allocateDescriptor =
          { ok := true
            outCPUHandle := ⟨h.startCPU + h.currentDescriptorIndex * h.descriptorSize⟩
            outGPUHandle :=
              if h.shaderVisible then
                ⟨h.startGPU + h.currentDescriptorIndex * h.descriptorSize⟩
              else ⟨0⟩
            heap := { h with currentDescriptorIndex := h.currentDescriptorIndex + 1 } } := by
        unfold DescriptorHeap.allocateDescriptor
        exact if_neg hc
      rw [hok]
      push_neg at hc
      have ht := ih { h with currentDescriptorIndex := h.currentDescriptorIndex + 1 }
      simp at ht ⊢
      omega

theorem DescriptorHeap.allocState_of_not_created (h : DescriptorHeap)
    (hcr : h.heapCreated = false) : ∀ n, h.allocState n = h := by
  intro n
  induction n generalizing h with
  | zero => rfl
  | succ n ih =>
    rw [DescriptorHeap.allocState]
    have hfail : h.allocateDescriptor =
        { ok := false, outCPUHandle := ⟨0⟩, outGPUHandle := ⟨0⟩, heap := h } := by
      unfold DescriptorHeap.allocateDescriptor
      exact if_pos (Or.inl (by simp [hcr]))
    rw [hfail]
    exact ih h hcr

theorem DescriptorHeap.allocState_index (n : Nat) (h : DescriptorHeap)
    (hcr : h.heapCreated = true)
    (hle : h.currentDescriptorIndex ≤ h.numDescriptorsInHeap) :
    (h.allocState n).currentDescriptorIndex =
      min (h.currentDescriptorIndex + n) h.numDescriptorsInHeap ∧
    (h.allocState n).heapCreated = true ∧
    (h.allocState n).numDescriptorsInHeap = h.numDescriptorsInHeap := by
  induction n generalizing h with
  | zero =>
    refine ⟨?_, hcr, rfl⟩
    show h.currentDescriptorIndex = _
    omega
  | succ n ih =>
    rw [DescriptorHeap.allocState]
    by_cases hc : h.numDescriptorsInHeap ≤ h.currentDescriptorIndex
    · have hidx : h.currentDescriptorIndex = h.numDescriptorsInHeap := le_antisymm hle hc
      have hfail : h.allocateDescriptor =
          { ok := false, outCPUHandle := ⟨0⟩, outGPUHandle := ⟨0⟩, heap := h } := by
        unfold DescriptorHeap.allocateDescriptor
        exact if_pos (Or.inr hc)
      rw [hfail]
      obtain ⟨h1, h2, h3⟩ := ih h hcr hle
      refine ⟨?_, h2, h3⟩
      rw [h1]
      omega
    · have hok : h.allocateDescriptor.heap =
          { h with currentDescriptorIndex := h.currentDescriptorIndex + 1 } := by
        unfold DescriptorHeap.allocateDescriptor
        rw [if_neg]
        push_neg
        exact ⟨by simp [hcr], by omega⟩
      rw [hok]
      obtain ⟨h1, h2, h3⟩ := ih { h with currentDescriptorIndex := h.currentDescriptorIndex + 1 }
        (by simpa using hcr) (by simp; omega)
      refine ⟨?_, h2, by simpa using h3⟩
      rw [h1]
      simp
      omega

theorem CommandQueue.signalState_nextFenceValue (n : Nat) (q : CommandQueue)
    (hq : q.nextFenceValue < 2 ^ 64) :
    (q.signalState n).nextFenceValue = (q.nextFenceValue + n) % 2 ^ 64 := by
  induction n generalizing q with
  | zero =>
    show q.nextFenceValue = _
    rw [Nat.add_zero, Nat.mod_eq_of_lt hq]
  | succ n ih =>
    rw [CommandQueue.signalState]
    have hstep := ih q.signal.2 (by
      show (q.nextFenceValue + 1) % 2 ^ 64 < 2 ^ 64
      exact Nat.mod_lt _ (by norm_num))
    rw [hstep]
    show ((q.nextFenceValue + 1) % 2 ^ 64 + n) % 2 ^ 64 = _
    rw [Nat.mod_add_mod]
    congr 1
    omega

theorem CommandQueue.signalValue_eq (n : Nat) (q : CommandQueue)
    (hq : q.nextFenceValue < 2 ^ 64) :
    q.signalValue n = (q.nextFenceValue + n) % 2 ^ 64 :=
  CommandQueue.signalState_nextFenceValue n q hq

/-! ## Claim theorems -/

/-- C3: starting from a freshly created descriptor heap of declared
capacity `C = numDescriptorsInHeap` (bump index 0), no sequence of
`allocateDescriptor` calls ever produces more than `C` successes; the
allocation following the first `C` calls fails deterministically,
returning `false` and zeroed-out CPU/GPU handles; and a single
`allocateDescriptor` call never decreases the internal allocation index. -/
theorem descriptorHeap_alloc_capacity (h : DescriptorHeap)
    (hfresh : h.currentDescriptorIndex = 0) :
    (∀ n, h.allocCount n ≤ h.numDescriptorsInHeap) ∧
    ((h.allocState h.numDescriptorsInHeap).allocateDescriptor.ok = false ∧
     (h.allocState h.numDescriptorsInHeap).allocateDescriptor.outCPUHandle.ptr = 0 ∧
     (h.allocState h.numDescriptorsInHeap).allocateDescriptor.outGPUHandle.ptr = 0) ∧
    (∀ g : DescriptorHeap,
      g.currentDescriptorIndex ≤ (g.allocateDescriptor).heap.currentDescriptorIndex) := by
  refine ⟨?_, ?_, ?_⟩
  · intro n
    have := DescriptorHeap.allocCount_le n h
    omega
  · have hguard : ¬(h.allocState h.numDescriptorsInHeap).heapCreated ∨
        (h.allocState h.numDescriptorsInHeap).numDescriptorsInHeap ≤
          (h.allocState h.numDescriptorsInHeap).currentDescriptorIndex := by
      cases hcr : h.heapCreated with
      | false =>
        rw [h.allocState_of_not_created hcr]
        exact Or.inl (by simp [hcr])
      | true =>
        obtain ⟨h1, h2, h3⟩ := DescriptorHeap.allocState_index h.numDescriptorsInHeap h hcr
          (by omega)
        refine Or.inr ?_
        rw [h1, h3, hfresh]
        omega
    have hfail : (h.allocState h.numDescriptorsInHeap).allocateDescriptor =
        { ok := false, outCPUHandle := ⟨0⟩, outGPUHandle := ⟨0⟩,
          heap := h.allocState h.numDescriptorsInHeap } := by
      unfold DescriptorHeap.allocateDescriptor
      exact if_pos hguard
    rw [hfail]
    exact ⟨rfl, rfl, rfl⟩
  · intro g
    unfold DescriptorHeap.allocateDescriptor
    split
    · exact Nat.le_refl _
    · exact Nat.le_succ _

/-- C3 witness: a created, shader-visible heap of capacity 2 admits at most
2 successes in 5 calls, and its third allocation fails with zero
handles. -/
theorem descriptorHeap_alloc_capacity_witness :
    (DescriptorHeap.allocCount ⟨true, 2, true, 8, 100, 200, 0⟩ 5 ≤ 2) ∧
    ((DescriptorHeap.allocState ⟨true, 2, true, 8, 100, 200, 0⟩ 2).allocateDescriptor.ok
      = false) := by
  have := descriptorHeap_alloc_capacity ⟨true, 2, true, 8, 100, 200, 0⟩ rfl
  exact ⟨this.1 5, this.2.1.1⟩

/-- C4: shader binding table layout for one ray-generation record, two
miss records and two hit-group records.  The record stride is the 32-byte
shader-identifier size rounded up to the 32-byte record alignment; the
miss and hit-group region start offsets are rounded up to the 64-byte
table alignment (hence multiples of 64); and the computed total table
size equals the sum of the three region sizes each independently rounded
up to the table alignment. -/
theorem sbt_layout_alignment :
    sbtEntrySize = AlignUp shaderIdSize D3D12_RAYTRACING_SHADER_RECORD_BYTE_ALIGNMENT ∧
    sbtEntrySize = 32 ∧
    missTableStart % 64 = 0 ∧
    hitGroupTableStart % 64 = 0 ∧
    missTableStart = 64 ∧
    hitGroupTableStart = 128 ∧
    sbtSize = AlignUp (numRayGenEntries * sbtEntrySize) tableAlignment +
      AlignUp (numMissEntries * sbtEntrySize) tableAlignment +
      AlignUp (numHitGroupEntries * sbtEntrySize) tableAlignment ∧
    sbtSize = 192 := by
  decide

/-- C6 counterexample: the fence counter is a 64-bit integer, so the
sequence of `signal()` return values is not strictly increasing over
*every* sequence of calls: starting from a fresh queue
(`m_nextFenceValue = 1`), the signal at index `2^64 - 1` returns 0, which
is smaller than the first returned value 1, and the signal at index
`2^64` returns 1 again, reusing the very first fence value. -/
theorem signal_value_wraps_and_reuses :
    CommandQueue.create.signalValue (2 ^ 64 - 1) < CommandQueue.create.signalValue 0 ∧
    CommandQueue.create.signalValue (2 ^ 64) = CommandQueue.create.signalValue 0 := by
  have h1 : (1 : Nat) < 2 ^ 64 := by norm_num
  have hwrap := CommandQueue.signalValue_eq (2 ^ 64 - 1) CommandQueue.create h1
  have hnext := CommandQueue.signalValue_eq (2 ^ 64) CommandQueue.create h1
  have h0 : CommandQueue.create.signalValue 0 = 1 := rfl
  have hN : (2 : Nat) ^ 64 = 18446744073709551616 := by norm_num
  constructor
  · rw [hwrap, h0]
    show (1 + (2 ^ 64 - 1)) % 2 ^ 64 < 1
    omega
  · rw [hnext, h0]
    show (1 + 2 ^ 64) % 2 ^ 64 = 1
    omega

/-- C6 (amended): `signal()` return values are strictly monotonically
increasing — and hence never reused — across any sequence of calls that
does not exhaust the 64-bit counter: if the `i`-th and `j`-th calls both
happen before `m_nextFenceValue` would wrap past `2^64`, then `i < j`
implies the `i`-th returned value is strictly smaller than the `j`-th. -/
theorem signal_strictly_monotone_before_wrap (q : CommandQueue) (i j : Nat)
    (hq : q.nextFenceValue < 2 ^ 64) (hij : i < j)
    (hj : q.nextFenceValue + j < 2 ^ 64) :
    q.signalValue i < q.signalValue j := by
  rw [CommandQueue.signalValue_eq i q hq, CommandQueue.signalValue_eq j q hq,
    Nat.mod_eq_of_lt (by omega), Nat.mod_eq_of_lt (by omega)]
  omega

/-- C6 witness: from a fresh queue, the third signal hands out a larger
value than the first. -/
theorem signal_strictly_monotone_before_wrap_witness :
    CommandQueue.create.signalValue 0 < CommandQueue.create.signalValue 2 :=
  signal_strictly_monotone_before_wrap CommandQueue.create 0 2
    (by norm_num [CommandQueue.create]) (by norm_num) (by norm_num [CommandQueue.create])

/-- C9: `Buffer::map` is idempotent.  On a buffer that is already mapped at
pointer `p`, a further call returns `p` again, leaves the buffer state
unchanged and does not invoke `ID3D12Resource::Map`; on an unmapped buffer
with no resource it returns null (and also touches nothing). -/
theorem buffer_map_idempotent (b : Buffer) (osMap : Option Nat) (p : Nat) :
    (b.mappedData = some p →
      b.map osMap = { ret := some p, buf := b, calledResourceMap := false }) ∧
    (b.hasResource = false → b.mappedData = none →
      b.map osMap = { ret := none, buf := b, calledResourceMap := false }) := by
  constructor
  · intro hp
    unfold Buffer.map
    rw [if_pos (Or.inr (by simp [hp])), hp]
  · intro hres hnone
    unfold Buffer.map
    rw [if_pos (Or.inl (by simp [hres])), hnone]

/-- C9 witness: a mapped upload buffer returns its existing pointer 77
without touching the resource, and a resource-less unmapped buffer
returns null. -/
theorem buffer_map_idempotent_witness :
    Buffer.map ⟨true, HeapType.UPLOAD, some 77⟩ (some 5) =
      { ret := some 77, buf := ⟨true, HeapType.UPLOAD, some 77⟩,
        calledResourceMap := false } ∧
    Buffer.map ⟨false, HeapType.UPLOAD, none⟩ (some 5) =
      { ret := none, buf := ⟨false, HeapType.UPLOAD, none⟩,
        calledResourceMap := false } :=
  ⟨(buffer_map_idempotent ⟨true, HeapType.UPLOAD, some 77⟩ (some 5) 77).1 rfl,
   (buffer_map_idempotent ⟨false, HeapType.UPLOAD, none⟩ (some 5) 77).2 rfl rfl⟩

/-- C8: building the shader binding table twice from the same pipeline
state object (same `GetShaderIdentifier` answers) yields byte-identical
table contents, of the fixed computed table size: the contents are a
deterministic function of the pipeline's shader identifiers and the
alignment constants. -/
theorem sbt_build_deterministic (p q : StateObjectProps) (t₁ t₂ : List Nat)
    (hpq : ∀ e, p.getShaderIdentifier e = q.getShaderIdentifier e)
    (h₁ : buildShaderBindingTable p = some t₁)
    (h₂ : buildShaderBindingTable q = some t₂) :
    t₁ = t₂ ∧ t₁.length = sbtSize := by
  have hsame : buildShaderBindingTable p = buildShaderBindingTable q := by
    unfold buildShaderBindingTable
    rw [hpq .RayGen, hpq .Miss, hpq .ShadowMiss, hpq .HitGroup, hpq .ShadowHitGroup]
  rw [hsame, h₂] at h₁
  obtain rfl := Option.some.inj h₁
  refine ⟨rfl, ?_⟩
  unfold buildShaderBindingTable at h₂
  match hr : q.getShaderIdentifier .RayGen, hm : q.getShaderIdentifier .Miss,
      hsm : q.getShaderIdentifier .ShadowMiss, hh : q.getShaderIdentifier .HitGroup,
      hsh : q.getShaderIdentifier .ShadowHitGroup with
  | some rg, some m, some sm, some hg, some shg =>
    rw [hr, hm, hsm, hh, hsh] at h₂
    obtain rfl := Option.some.inj h₂
    simp [sbtContents]
  | none, _, _, _, _ => rw [hr] at h₂; exact absurd h₂ (by simp)
  | some _, none, _, _, _ => rw [hr, hm] at h₂; exact absurd h₂ (by simp)
  | some _, some _, none, _, _ => rw [hr, hm, hsm] at h₂; exact absurd h₂ (by simp)
  | some _, some _, some _, none, _ => rw [hr, hm, hsm, hh] at h₂; exact absurd h₂ (by simp)
  | some _, some _, some _, some _, none =>
    rw [hr, hm, hsm, hh, hsh] at h₂; exact absurd h₂ (by simp)

/-- C8 witness: two builds from a pipeline answering the constant
identifier `replicate 32 7` for every export produce the same contents of
length `sbtSize`. -/
theorem sbt_build_deterministic_witness :
    sbtContents ⟨List.replicate 32 7, List.replicate 32 7, List.replicate 32 7,
        List.replicate 32 7, List.replicate 32 7⟩ =
      sbtContents ⟨List.replicate 32 7, List.replicate 32 7, List.replicate 32 7,
        List.replicate 32 7, List.replicate 32 7⟩ ∧
    (sbtContents ⟨List.replicate 32 7, List.replicate 32 7, List.replicate 32 7,
        List.replicate 32 7, List.replicate 32 7⟩).length = sbtSize :=
  sbt_build_deterministic
    { getShaderIdentifier := fun _ => some (List.replicate 32 7) }
    { getShaderIdentifier := fun _ => some (List.replicate 32 7) }
    _ _ (fun _ => rfl) rfl rfl

/-- C2: a successful top-level build takes the incremental-update path
(`PERFORM_UPDATE` set, previous result as both source and destination) if
and only if a previous result buffer exists and is at least as large as
the prebuild query requires; otherwise the build goes into a freshly sized
result buffer with source address 0, and the very first build (no previous
result) is a full rebuild with the `PERFORM_UPDATE` bit clear.  The GPU
virtual address of a live committed resource is nonzero, which the
hypothesis on the previous result buffer records. -/
theorem tlas_update_iff_previous_result_large_enough
    (blas : GpuBuffer) (tlas : TlasBuffersState)
    (prebuildResultSize prebuildScratchSize freshScratchAddress freshResultAddress : Nat)
    (o : TlasBuildOutcome)
    (hprev : ∀ prev, tlas.result = some prev → prev.address ≠ 0)
    (ho : buildTLAS (some blas) tlas prebuildResultSize prebuildScratchSize
        freshScratchAddress freshResultAddress = some o) :
    ((∃ prev, tlas.result = some prev ∧ tlasUpdatePathTaken o prev) ↔
      (∃ prev, tlas.result = some prev ∧ prebuildResultSize ≤ prev.width)) ∧
    ((∀ prev, tlas.result = some prev → prev.width < prebuildResultSize) →
      o.tlas.result = some ⟨prebuildResultSize, freshResultAddress⟩ ∧
      o.buildDesc.destAddress = freshResultAddress ∧
      o.buildDesc.sourceAddress = 0) ∧
    (tlas.result = none →
      o.tlas.result = some ⟨prebuildResultSize, freshResultAddress⟩ ∧
      o.buildDesc.sourceAddress = 0 ∧
      Nat.land o.buildDesc.inputFlags
        D3D12_RAYTRACING_ACCELERATION_STRUCTURE_BUILD_FLAG_PERFORM_UPDATE = 0) := by
  by_cases h0 : prebuildResultSize = 0
  · rw [buildTLAS, if_pos h0] at ho
    exact absurd ho (by simp)
  · cases hres : tlas.result with
    | none =>
      rw [buildTLAS, if_neg h0] at ho
      rw [hres] at ho
      obtain rfl := Option.some.inj ho
      refine ⟨?_, ?_, ?_⟩
      · simp [hres]
      · intro _
        exact ⟨rfl, rfl, rfl⟩
      · intro _
        refine ⟨rfl, rfl, ?_⟩
        dsimp only
        decide
    | some prev =>
      have hpnz := hprev prev hres
      rw [buildTLAS, if_neg h0] at ho
      rw [hres] at ho
      dsimp only at ho
      by_cases hw : prev.width < prebuildResultSize
      · rw [if_pos hw] at ho
        obtain rfl := Option.some.inj ho
        refine ⟨?_, ?_, ?_⟩
        · constructor
          · rintro ⟨p, hp, _, hsrc, _⟩
            obtain rfl := Option.some.inj hp
            dsimp only at hsrc
            exact absurd hsrc.symm hpnz
          · rintro ⟨p, hp, hle⟩
            obtain rfl := Option.some.inj hp
            omega
        · intro _
          exact ⟨rfl, rfl, rfl⟩
        · intro hnone
          exact absurd hnone (by simp)
      · rw [if_neg hw] at ho
        obtain rfl := Option.some.inj ho
        refine ⟨?_, ?_, ?_⟩
        · constructor
          · rintro ⟨p, hp, _⟩
            obtain rfl := Option.some.inj hp
            exact ⟨prev, rfl, by omega⟩
          · rintro ⟨p, hp, _⟩
            obtain rfl := Option.some.inj hp
            refine ⟨prev, rfl, ?_, rfl, rfl⟩
            dsimp only
            rw [Option.isSome_some, if_pos rfl]
            decide
        · intro hall
          exact absurd (hall prev rfl) (by omega)
        · intro hnone
          exact absurd hnone (by simp)


/-- C2 witness: the very first top-level build (no previous result) at
prebuild sizes 64/32 allocates a fresh 64-byte result buffer and performs
a full rebuild with source address 0 and the `PERFORM_UPDATE` bit clear. -/
theorem tlas_update_iff_previous_result_large_enough_witness :
    buildTLAS (some ⟨100, 1000⟩) ⟨none, none⟩ 64 32 2000 3000 =
      some tlasFirstBuildOutcome ∧
    tlasFirstBuildOutcome.tlas.result = some ⟨64, 3000⟩ ∧
    tlasFirstBuildOutcome.buildDesc.sourceAddress = 0 ∧
    Nat.land tlasFirstBuildOutcome.buildDesc.inputFlags
      D3D12_RAYTRACING_ACCELERATION_STRUCTURE_BUILD_FLAG_PERFORM_UPDATE = 0 := by
  have ho : buildTLAS (some ⟨100, 1000⟩) ⟨none, none⟩ 64 32 2000 3000 =
      some tlasFirstBuildOutcome := rfl
  refine ⟨ho, ?_⟩
  exact (tlas_update_iff_previous_result_large_enough ⟨100, 1000⟩ ⟨none, none⟩ 64 32 2000 3000
    tlasFirstBuildOutcome (by intro p hp; simp at hp) ho).2.2 rfl

theorem buildTLAS_outcome_shape
    (blas : GpuBuffer) (tlas : TlasBuffersState)
    (prebuildResultSize prebuildScratchSize freshScratchAddress freshResultAddress : Nat)
    (o : TlasBuildOutcome)
    (ho : buildTLAS (some blas) tlas prebuildResultSize prebuildScratchSize
        freshScratchAddress freshResultAddress = some o) :
    o.buildDesc.numDescs = 1 ∧ o.instanceDescWritten = tlasInstanceDesc blas := by
  by_cases h0 : prebuildResultSize = 0
  · rw [buildTLAS, if_pos h0] at ho
    exact absurd ho (by simp)
  · cases hres : tlas.result with
    | none =>
      rw [buildTLAS, if_neg h0] at ho
      rw [hres] at ho
      obtain rfl := Option.some.inj ho
      exact ⟨rfl, rfl⟩
    | some prev =>
      rw [buildTLAS, if_neg h0] at ho
      rw [hres] at ho
      dsimp only at ho
      by_cases hw : prev.width < prebuildResultSize
      · rw [if_pos hw] at ho
        obtain rfl := Option.some.inj ho
        exact ⟨rfl, rfl⟩
      · rw [if_neg hw] at ho
        obtain rfl := Option.some.inj ho
        exact ⟨rfl, rfl⟩

/-- C5 counterexample: the instance descriptor written by `buildTLAS` sets
`InstanceMask = 1`, which does *not* select all rays: a ray whose 8-bit
inclusion mask is 2 has `InstanceMask & rayMask = 1 & 2 = 0` and skips the
instance, so the claim that the mask "selects all rays" (which requires
mask `0xFF`) fails on the code. -/
theorem tlas_instance_mask_not_all_rays :
    (tlasInstanceDesc ⟨100, 1000⟩).instanceMask = 1 ∧
    Nat.land (tlasInstanceDesc ⟨100, 1000⟩).instanceMask 2 = 0 ∧
    ¬ selectsAllRays (tlasInstanceDesc ⟨100, 1000⟩).instanceMask := by
  refine ⟨rfl, rfl, fun h => ?_⟩
  have h2 := h ⟨2, by norm_num⟩ (by norm_num)
  exact h2 rfl

/-- C5 (amended): every successful top-level build writes exactly one
instance descriptor (`NumDescs = 1`), whose transform is the row-major
transpose of the column-major world matrix, whose acceleration-structure
field is the bottom-level result buffer's GPU device address, and whose
instance mask is 1 — which admits any ray whose inclusion mask has bit 0
set (in particular the default mask `0xFF`), but not all rays. -/
theorem tlas_single_instance_descriptor
    (blas : GpuBuffer) (tlas : TlasBuffersState)
    (prebuildResultSize prebuildScratchSize freshScratchAddress freshResultAddress : Nat)
    (o : TlasBuildOutcome)
    (ho : buildTLAS (some blas) tlas prebuildResultSize prebuildScratchSize
        freshScratchAddress freshResultAddress = some o) :
    o.buildDesc.numDescs = 1 ∧
    o.instanceDescWritten = tlasInstanceDesc blas ∧
    (∀ (r : Fin 3) (c : Fin 4),
      o.instanceDescWritten.transform r c = worldMatrix c (Fin.castSucc r)) ∧
    o.instanceDescWritten.accelerationStructure = blas.address ∧
    o.instanceDescWritten.instanceMask = 1 ∧
    Nat.land o.instanceDescWritten.instanceMask 255 ≠ 0 := by
  obtain ⟨hnum, hwrit⟩ := buildTLAS_outcome_shape blas tlas prebuildResultSize
    prebuildScratchSize freshScratchAddress freshResultAddress o ho
  rw [hwrit]
  refine ⟨hnum, rfl, ?_, rfl, rfl, ?_⟩
  · show ∀ (r : Fin 3) (c : Fin 4),
      memcpyTransform (glmTranspose worldMatrix) r c = worldMatrix c (Fin.castSucc r)
    intro r c
    fin_cases r <;> fin_cases c <;>
      norm_num [memcpyTransform, glmTranspose, worldMatrix, glmTranslate, identity4,
        worldTranslation, Fin.castSucc, Fin.castAdd, Fin.castLE]
  · show Nat.land 1 255 ≠ 0
    decide

/-- C5 witness: a concrete update-path build writes one descriptor whose
acceleration-structure field is the BLAS address 4000 and whose mask
is 1. -/
theorem tlas_single_instance_descriptor_witness :
    buildTLAS (some ⟨50, 4000⟩) ⟨none, some ⟨128, 5000⟩⟩ 64 32 2000 3000 =
      some tlasUpdateBuildOutcome ∧
    tlasUpdateBuildOutcome.buildDesc.numDescs = 1 ∧
    tlasUpdateBuildOutcome.instanceDescWritten.accelerationStructure = 4000 ∧
    tlasUpdateBuildOutcome.instanceDescWritten.instanceMask = 1 := by
  have ho : buildTLAS (some ⟨50, 4000⟩) ⟨none, some ⟨128, 5000⟩⟩ 64 32 2000 3000 =
      some tlasUpdateBuildOutcome := rfl
  have h := tlas_single_instance_descriptor ⟨50, 4000⟩ ⟨none, some ⟨128, 5000⟩⟩ 64 32 2000 3000
    tlasUpdateBuildOutcome ho
  exact ⟨ho, h.1, h.2.2.2.1, h.2.2.2.2.1⟩

/-- C7: whenever any required raytracing resource is unset — pipeline
state object, shader binding table, TLAS result buffer, output image,
or any of the required descriptor handles (output UAV, camera CBV, object
CBV, texture SRV, mesh vertex/index SRVs) — the raytraced variant records
exactly one command, a clear of the current back buffer with the
diagnostic purple color, leaves the raytracing state unchanged, and
returns without dispatching rays. -/
theorem renderVariant_missing_resource_fallback
    (s : RenderRayTracingState) (texture : Option Texture)
    (prebuildResultSize prebuildScratchSize freshScratchAddress freshResultAddress : Nat)
    (h : s.stateObject = false ∨ s.shaderBindingTable = none ∨
         s.tlasBuffers.result = none ∨ s.outputTexture = false ∨
         s.outputUavGpuHandle = 0 ∨ s.dxrCameraCbvHandleGPU = 0 ∨
         s.dxrObjectCbvHandleGPU = 0 ∨ texture = none ∨
         (∃ t, texture = some t ∧ t.srvGPUHandle = 0) ∨
         s.meshVertexBufferSrvHandleGPU = 0 ∨ s.meshIndexBufferSrvHandleGPU = 0) :
    renderVariant s texture prebuildResultSize prebuildScratchSize
        freshScratchAddress freshResultAddress =
      ([DxrCmd.clearRenderTargetView diagnosticClearColor], s) := by
  have hready : resourcesReady s texture = false := by
    rcases h with h | h | h | h | h | h | h | h | ⟨t, ht, hsrv⟩ | h | h
    · simp [resourcesReady, h]
    · simp [resourcesReady, h]
    · simp [resourcesReady, h]
    · simp [resourcesReady, h]
    · simp [resourcesReady, h]
    · simp [resourcesReady, h]
    · simp [resourcesReady, h]
    · simp [resourcesReady, h]
    · simp [resourcesReady, ht, hsrv]
    · simp [resourcesReady, h]
    · simp [resourcesReady, h]
  rw [renderVariant, if_pos (by simp [hready])]

/-- C7 witness: with a null pipeline state object the variant degrades to
the single diagnostic clear. -/
theorem renderVariant_missing_resource_fallback_witness :
    renderVariant
        ⟨false, some ⟨192, 900⟩, 32, some ⟨100, 1000⟩, ⟨some ⟨32, 2000⟩, some ⟨64, 3000⟩⟩,
         true, 11, 12, 13, 14, 15, 16, 17, 800, 600⟩
        (some ⟨21⟩) 64 32 2000 3000 =
      ([DxrCmd.clearRenderTargetView diagnosticClearColor],
       ⟨false, some ⟨192, 900⟩, 32, some ⟨100, 1000⟩, ⟨some ⟨32, 2000⟩, some ⟨64, 3000⟩⟩,
        true, 11, 12, 13, 14, 15, 16, 17, 800, 600⟩) :=
  renderVariant_missing_resource_fallback
    ⟨false, some ⟨192, 900⟩, 32, some ⟨100, 1000⟩, ⟨some ⟨32, 2000⟩, some ⟨64, 3000⟩⟩,
     true, 11, 12, 13, 14, 15, 16, 17, 800, 600⟩
    (some ⟨21⟩) 64 32 2000 3000 (Or.inl rfl)

/-- C1: in a frame with non-null arguments, the renderer's trace waits on
the current slot's stored fence value — as the very first collaborator
call — exactly when that value is nonzero: if the slot's stored fence
value is 0 (the never-submitted sentinel), no `waitForFence` call appears
anywhere in the frame's trace; if it is nonzero, the trace starts with
`waitForFence` on exactly that value. -/
theorem render_waits_only_on_nonzero_fence (s : FrameState) (inputs : RenderInputs)
    (deltaTime : ℚ) (cam : Camera) (mesh : Mesh) (tex : Texture) :
    (s.frameFenceValues s.currentFrameIndex = 0 →
      ∀ v, RenderEvent.waitForFenceCall v ∉
        (render s inputs deltaTime (some cam) (some mesh) (some tex)).2) ∧
    (0 < s.frameFenceValues s.currentFrameIndex →
      (render s inputs deltaTime (some cam) (some mesh) (some tex)).2.head? =
        some (RenderEvent.waitForFenceCall (s.frameFenceValues s.currentFrameIndex))) := by
  constructor
  · intro hz v
    have hwait : waitForGpu s = [] := by
      simp [waitForGpu, hz]
    by_cases h1 : inputs.resetAllocatorOk <;> by_cases h2 : inputs.resetCommandListOk <;>
      by_cases h3 : inputs.closeOk <;>
      simp [render, hwait, h1, h2, h3, moveToNextFrame]
  · intro hpos
    have hwait : waitForGpu s =
        [RenderEvent.waitForFenceCall (s.frameFenceValues s.currentFrameIndex)] := by
      simp [waitForGpu, hpos]
    by_cases h1 : inputs.resetAllocatorOk <;> by_cases h2 : inputs.resetCommandListOk <;>
      by_cases h3 : inputs.closeOk <;>
      simp [render, hwait, h1, h2, h3]

/-- C1 witness: with slot 0 storing fence value 5, the frame's trace
starts by waiting on fence value 5. -/
theorem render_waits_only_on_nonzero_fence_witness :
    (render ⟨0, fun _ => 5, CommandQueue.create, fun _ => none, fun _ => none, 0⟩
        ⟨true, true, true, true, 0⟩ 0 (some ⟨fun _ => 0, identity4, identity4⟩)
        (some ⟨36⟩) (some ⟨21⟩)).2.head? =
      some (RenderEvent.waitForFenceCall 5) :=
  (render_waits_only_on_nonzero_fence
    ⟨0, fun _ => 5, CommandQueue.create, fun _ => none, fun _ => none, 0⟩
    ⟨true, true, true, true, 0⟩ 0 ⟨fun _ => 0, identity4, identity4⟩ ⟨36⟩ ⟨21⟩).2
    (by decide)

/-- C10: `render` with a null camera, mesh or texture returns immediately:
the frame index, the stored per-slot fence values, the queue, and the
light/object constant-buffer contents are all unchanged, and no
collaborator call is made (no commands recorded or submitted). -/
theorem render_null_argument_guard (s : FrameState) (inputs : RenderInputs)
    (deltaTime : ℚ) (camera : Option Camera) (mesh : Option Mesh)
    (texture : Option Texture)
    (h : camera = none ∨ mesh = none ∨ texture = none) :
    (render s inputs deltaTime camera mesh texture).1.currentFrameIndex =
      s.currentFrameIndex ∧
    (render s inputs deltaTime camera mesh texture).1.frameFenceValues =
      s.frameFenceValues ∧
    (render s inputs deltaTime camera mesh texture).1.lightCBs = s.lightCBs ∧
    (render s inputs deltaTime camera mesh texture).1.objectCBs = s.objectCBs ∧
    (render s inputs deltaTime camera mesh texture).1.queue = s.queue ∧
    (render s inputs deltaTime camera mesh texture).2 = [] := by
  have hr : render s inputs deltaTime camera mesh texture = (s, []) := by
    rcases h with h | h | h
    · subst h
      cases mesh <;> cases texture <;> rfl
    · subst h
      cases camera <;> cases texture <;> rfl
    · subst h
      cases camera <;> cases mesh <;> rfl
  rw [hr]
  exact ⟨rfl, rfl, rfl, rfl, rfl, rfl⟩

/-- C10 witness: a null camera leaves a concrete frame state untouched and
produces an empty trace. -/
theorem render_null_argument_guard_witness :
    (render ⟨0, fun _ => 7, CommandQueue.create, fun _ => none, fun _ => none, 0⟩
        ⟨true, true, true, true, 1⟩ 0 none (some ⟨36⟩) (some ⟨21⟩)).2 = [] ∧
    (render ⟨0, fun _ => 7, CommandQueue.create, fun _ => none, fun _ => none, 0⟩
        ⟨true, true, true, true, 1⟩ 0 none (some ⟨36⟩) (some ⟨21⟩)).1.currentFrameIndex
      = 0 := by
  have h := render_null_argument_guard
    ⟨0, fun _ => 7, CommandQueue.create, fun _ => none, fun _ => none, 0⟩
    ⟨true, true, true, true, 1⟩ 0 none (some ⟨36⟩) (some ⟨21⟩) (Or.inl rfl)
  exact ⟨h.2.2.2.2.2, h.1⟩
